import Mathlib

/-!
Verification of the `ancla` Python SDK (`src/sdks/python/src/ancla/`):
a shallow embedding of `models.py`, `exceptions.py` and `client.py`
into Lean, followed by theorems checking the repository's specification
against the embedded code.

JSON values are modelled by the inductive `Json`; a parsed HTTP
response is modelled by `Response`, carrying the status code, the raw
body text, and the result of `response.json()` (`none` when JSON
parsing raises).  Pydantic's `Model.model_validate` is embedded per
record type as a function `Json → Option Record`: extra keys are
ignored, a missing key takes the field's declared default when one
exists and fails validation otherwise, and a present key must carry a
value of the field's declared type.
-/

namespace Ancla

/-- A JSON value (the result of decoding a response body). -/
inductive Json where
  | null : Json
  | bool (b : Bool) : Json
  | num (n : Int) : Json
  | str (s : String) : Json
  | arr (xs : List Json) : Json
  | obj (kvs : List (String × Json)) : Json
  deriving Repr

/-- `dict.get(key)` on a JSON object: the value bound to the first
occurrence of `key`, `none` (Python `None`) when the key is absent. -/
def objGet : List (String × Json) → String → Option Json
  | [], _ => none
  | (k', v) :: rest, k => if k' = k then some v else objGet rest k

/-- Python truthiness of a JSON value. -/
def jsonTruthy : Json → Bool
  | .null => false
  | .bool b => b
  | .num n => n != 0
  | .str s => s != ""
  | .arr xs => !xs.isEmpty
  | .obj kvs => !kvs.isEmpty

/-- Python truthiness with `none` standing for Python `None`. -/
def optTruthy : Option Json → Bool
  | none => false
  | some j => jsonTruthy j

/-- Decode a string field: present keys must hold a string, an absent
key takes the default (validation fails when there is none). -/
def fieldStr (kvs : List (String × Json)) (key : String)
    (dflt : Option String) : Option String :=
  match objGet kvs key with
  | some (.str s) => some s
  | some _ => none
  | none => dflt

/-- Decode an integer field, with the same default discipline. -/
def fieldInt (kvs : List (String × Json)) (key : String)
    (dflt : Option Int) : Option Int :=
  match objGet kvs key with
  | some (.num n) => some n
  | some _ => none
  | none => dflt

/-- Decode a boolean field, with the same default discipline. -/
def fieldBool (kvs : List (String × Json)) (key : String)
    (dflt : Option Bool) : Option Bool :=
  match objGet kvs key with
  | some (.bool b) => some b
  | some _ => none
  | none => dflt

/-- Validate every element of a JSON list (the embedding of a Python
list comprehension `[f(item) for item in items]` over a validator that
may raise). -/
def validateAll (f : Json → Option α) : List Json → Option (List α)
  | [] => some []
  | x :: xs =>
    match f x with
    | none => none
    | some a => (validateAll f xs).map (a :: ·)

/-- Decode a list-of-records field, with the same default discipline. -/
def fieldList (f : Json → Option α) (kvs : List (String × Json))
    (key : String) (dflt : Option (List α)) : Option (List α) :=
  match objGet kvs key with
  | some (.arr xs) => validateAll f xs
  | some _ => none
  | none => dflt

/-! ## `models.py`: the record types defined by the models module -/

/-- `WorkspaceMember` (`models.py`): `username` and `email` required,
`admin` defaults to false. -/
structure WorkspaceMember where
  username : String
  email : String
  admin : Bool
  deriving Repr, DecidableEq

def WorkspaceMember.model_validate : Json → Option WorkspaceMember
  | .obj kvs => do
    let username ← fieldStr kvs "username" none
    let email ← fieldStr kvs "email" none
    let admin ← fieldBool kvs "admin" (some false)
    pure ⟨username, email, admin⟩
  | _ => none

/-- `Workspace` (`models.py`, formerly organization): `name` and `slug`
required, every other field defaulted. -/
structure Workspace where
  id : String
  name : String
  slug : String
  member_count : Int
  project_count : Int
  service_count : Int
  members : List WorkspaceMember
  deriving Repr, DecidableEq

def Workspace.model_validate : Json → Option Workspace
  | .obj kvs => do
    let id ← fieldStr kvs "id" (some "")
    let name ← fieldStr kvs "name" none
    let slug ← fieldStr kvs "slug" none
    let member_count ← fieldInt kvs "member_count" (some 0)
    let project_count ← fieldInt kvs "project_count" (some 0)
    let service_count ← fieldInt kvs "service_count" (some 0)
    let members ← fieldList WorkspaceMember.model_validate kvs "members" (some [])
    pure ⟨id, name, slug, member_count, project_count, service_count, members⟩
  | _ => none

/-- `Project` (`models.py`): `name` and `slug` required. -/
structure Project where
  id : String
  name : String
  slug : String
  workspace_slug : String
  workspace_name : String
  service_count : Int
  created : String
  updated : String
  deriving Repr, DecidableEq

def Project.model_validate : Json → Option Project
  | .obj kvs => do
    let id ← fieldStr kvs "id" (some "")
    let name ← fieldStr kvs "name" none
    let slug ← fieldStr kvs "slug" none
    let workspace_slug ← fieldStr kvs "workspace_slug" (some "")
    let workspace_name ← fieldStr kvs "workspace_name" (some "")
    let service_count ← fieldInt kvs "service_count" (some 0)
    let created ← fieldStr kvs "created" (some "")
    let updated ← fieldStr kvs "updated" (some "")
    pure ⟨id, name, slug, workspace_slug, workspace_name, service_count,
          created, updated⟩
  | _ => none

/-- `Service` (`models.py`, formerly application): `name` and `slug`
required.  The `process_counts` mapping is kept as an association
list. -/
structure Service where
  id : String
  name : String
  slug : String
  platform : String
  github_repository : String
  auto_deploy_branch : String
  process_counts : List (String × Int)
  deriving Repr, DecidableEq

/-- Decode a `dict[str, int]` JSON object field. -/
def fieldStrIntMap (kvs : List (String × Json)) (key : String)
    (dflt : Option (List (String × Int))) : Option (List (String × Int)) :=
  match objGet kvs key with
  | some (.obj pairs) =>
    validateAll (fun j => match j with | .num n => some n | _ => none)
        (pairs.map (·.2)) |>.map (fun ns => (pairs.map (·.1)).zip ns)
  | some _ => none
  | none => dflt

def Service.model_validate : Json → Option Service
  | .obj kvs => do
    let id ← fieldStr kvs "id" (some "")
    let name ← fieldStr kvs "name" none
    let slug ← fieldStr kvs "slug" none
    let platform ← fieldStr kvs "platform" (some "")
    let github_repository ← fieldStr kvs "github_repository" (some "")
    let auto_deploy_branch ← fieldStr kvs "auto_deploy_branch" (some "")
    let process_counts ← fieldStrIntMap kvs "process_counts" (some [])
    pure ⟨id, name, slug, platform, github_repository, auto_deploy_branch,
          process_counts⟩
  | _ => none

/-- `Build` (`models.py`, formerly image): every field defaulted. -/
structure Build where
  id : String
  version : Int
  built : Bool
  error : Bool
  created : String
  deriving Repr, DecidableEq

def Build.model_validate : Json → Option Build
  | .obj kvs => do
    let id ← fieldStr kvs "id" (some "")
    let version ← fieldInt kvs "version" (some 0)
    let built ← fieldBool kvs "built" (some false)
    let error ← fieldBool kvs "error" (some false)
    let created ← fieldStr kvs "created" (some "")
    pure ⟨id, version, built, error, created⟩
  | _ => none

/-- `BuildList` (`models.py`): `items` defaults to the empty list. -/
structure BuildList where
  items : List Build
  deriving Repr, DecidableEq

def BuildList.model_validate : Json → Option BuildList
  | .obj kvs => do
    let items ← fieldList Build.model_validate kvs "items" (some [])
    pure ⟨items⟩
  | _ => none

/-- `Deploy` (`models.py`, formerly release + deployment): every field
defaulted. -/
structure Deploy where
  id : String
  complete : Bool
  error : Bool
  error_detail : String
  job_id : String
  created : String
  updated : String
  deriving Repr, DecidableEq

def Deploy.model_validate : Json → Option Deploy
  | .obj kvs => do
    let id ← fieldStr kvs "id" (some "")
    let complete ← fieldBool kvs "complete" (some false)
    let error ← fieldBool kvs "error" (some false)
    let error_detail ← fieldStr kvs "error_detail" (some "")
    let job_id ← fieldStr kvs "job_id" (some "")
    let created ← fieldStr kvs "created" (some "")
    let updated ← fieldStr kvs "updated" (some "")
    pure ⟨id, complete, error, error_detail, job_id, created, updated⟩
  | _ => none

/-- `DeployList` (`models.py`): `items` defaults to the empty list. -/
structure DeployList where
  items : List Deploy
  deriving Repr, DecidableEq

def DeployList.model_validate : Json → Option DeployList
  | .obj kvs => do
    let items ← fieldList Deploy.model_validate kvs "items" (some [])
    pure ⟨items⟩
  | _ => none

/-- `ConfigVar` (`models.py`): `name` required, the rest defaulted. -/
structure ConfigVar where
  id : String
  name : String
  value : String
  secret : Bool
  buildtime : Bool
  deriving Repr, DecidableEq

def ConfigVar.model_validate : Json → Option ConfigVar
  | .obj kvs => do
    let id ← fieldStr kvs "id" (some "")
    let name ← fieldStr kvs "name" none
    let value ← fieldStr kvs "value" (some "")
    let secret ← fieldBool kvs "secret" (some false)
    let buildtime ← fieldBool kvs "buildtime" (some false)
    pure ⟨id, name, value, secret, buildtime⟩
  | _ => none

/-- `Environment` (`models.py`): `name` and `slug` required. -/
structure Environment where
  id : String
  name : String
  slug : String
  service_count : Int
  created : String
  deriving Repr, DecidableEq

def Environment.model_validate : Json → Option Environment
  | .obj kvs => do
    let id ← fieldStr kvs "id" (some "")
    let name ← fieldStr kvs "name" none
    let slug ← fieldStr kvs "slug" none
    let service_count ← fieldInt kvs "service_count" (some 0)
    let created ← fieldStr kvs "created" (some "")
    pure ⟨id, name, slug, service_count, created⟩
  | _ => none

/-- `DeployLog` (`models.py`): every field defaulted. -/
structure DeployLog where
  status : String
  log_text : String
  deriving Repr, DecidableEq

def DeployLog.model_validate : Json → Option DeployLog
  | .obj kvs => do
    let status ← fieldStr kvs "status" (some "")
    let log_text ← fieldStr kvs "log_text" (some "")
    pure ⟨status, log_text⟩
  | _ => none

/-- `StageStatus` (`models.py`): every field defaulted. -/
structure StageStatus where
  status : String
  deriving Repr, DecidableEq

def StageStatus.model_validate : Json → Option StageStatus
  | .obj kvs => do
    let status ← fieldStr kvs "status" (some "")
    pure ⟨status⟩
  | _ => none

/-- Decode an optional nested-model field (`Model | None = None`):
absent or JSON `null` yields `None`, a present value must validate as
the nested model. -/
def fieldOptModel (f : Json → Option α) (kvs : List (String × Json))
    (key : String) : Option (Option α) :=
  match objGet kvs key with
  | none => some none
  | some .null => some none
  | some j => (f j).map some

/-- `PipelineStatus` (`models.py`): both stages optional, defaulting to
`None`. -/
structure PipelineStatus where
  build : Option StageStatus
  deploy : Option StageStatus
  deriving Repr, DecidableEq

def PipelineStatus.model_validate : Json → Option PipelineStatus
  | .obj kvs => do
    let build ← fieldOptModel StageStatus.model_validate kvs "build"
    let deploy ← fieldOptModel StageStatus.model_validate kvs "deploy"
    pure ⟨build, deploy⟩
  | _ => none

/-- `DeployResult` (`models.py`): every field defaulted. -/
structure DeployResult where
  build_id : String
  deriving Repr, DecidableEq

def DeployResult.model_validate : Json → Option DeployResult
  | .obj kvs => do
    let build_id ← fieldStr kvs "build_id" (some "")
    pure ⟨build_id⟩
  | _ => none

/-- `ScaleResult` (`models.py`): no fields at all — every JSON object
validates. -/
structure ScaleResult where
  deriving Repr, DecidableEq

def ScaleResult.model_validate : Json → Option ScaleResult
  | .obj _ => some ⟨⟩
  | _ => none

/-- `BuildResult` (`models.py`): every field defaulted. -/
structure BuildResult where
  build_id : String
  version : Int
  deriving Repr, DecidableEq

def BuildResult.model_validate : Json → Option BuildResult
  | .obj kvs => do
    let build_id ← fieldStr kvs "build_id" (some "")
    let version ← fieldInt kvs "version" (some 0)
    pure ⟨build_id, version⟩
  | _ => none

/-! ## Model classes referenced by `client.py` but absent from `models.py`

`client.py` imports `Org`, `App`, `Image`, `ImageList`, `Release`,
`ReleaseList`, `Deployment`, `CreateReleaseResult` and
`DeployReleaseResult` from `ancla.models`, yet `models.py` defines none
of them — it defines only the renamed record family.  The definitions
below model the missing classes from the spec so that the client's
response-handling logic can still be analysed. -/

/-- Modelled from the spec: `Org` is missing from `models.py`; the
glossary equates it with `Workspace` ("top-level tenant/organization
grouping projects", formerly organization). -/
abbrev Org := Workspace

def Org.model_validate : Json → Option Org := Workspace.model_validate

/-- Modelled from the spec: `App` is missing from `models.py`; the
glossary equates it with `Service` ("deployable unit (formerly
application)"). -/
abbrev App := Service

def App.model_validate : Json → Option App := Service.model_validate

/-- Modelled from the spec: `Image` is missing from `models.py`; the
glossary equates it with `Build` ("a compiled/packaged artifact
(formerly image)"). -/
abbrev Image := Build

def Image.model_validate : Json → Option Image := Build.model_validate

/-- Modelled from the spec: `ImageList` is missing from `models.py`;
it is the `{items: [...]}` envelope for images, as `BuildList` is for
builds. -/
abbrev ImageList := BuildList

def ImageList.model_validate : Json → Option ImageList :=
  BuildList.model_validate

/-- Modelled from the spec: `Release` is missing from `models.py`; the
glossary folds releases into `Deploy` ("formerly release/deployment"). -/
abbrev Release := Deploy

def Release.model_validate : Json → Option Release := Deploy.model_validate

/-- Modelled from the spec: `ReleaseList` is missing from `models.py`;
it is the `{items: [...]}` envelope for releases, as `DeployList` is
for deploys. -/
abbrev ReleaseList := DeployList

def ReleaseList.model_validate : Json → Option ReleaseList :=
  DeployList.model_validate

/-- Modelled from the spec: `Deployment` is missing from `models.py`;
the glossary folds deployments into `Deploy` ("the act/record of
rolling a build out", formerly release/deployment). -/
abbrev Deployment := Deploy

def Deployment.model_validate : Json → Option Deployment :=
  Deploy.model_validate

/-! ## `exceptions.py` and `client.py`: error translation -/

/-- The exception classes of `exceptions.py`, as a closed kind tag. -/
inductive ExcKind where
  | authenticationError
  | notFoundError
  | validationError
  | serverError
  | anclaError
  deriving Repr, DecidableEq

/-- An exception instance as raised by `_raise_for_status`: the kind
(which class was raised), the `message` argument, the `status_code`
attribute and the `detail` attribute.  `message` and `detail` are kept
as JSON values because Python passes through whatever the body held;
`none` stands for Python `None`. -/
structure AnclaException where
  kind : ExcKind
  message : Json
  statusCode : Nat
  detail : Option Json
  deriving Repr

/-- An HTTP response as seen by the client: the status code, the raw
body text (`response.text`), and the result of `response.json()` —
`none` when decoding the body as JSON raises. -/
structure Response where
  status : Nat
  text : String
  jsonBody : Option Json

/-- The `try` block of `_raise_for_status`:
`body = response.json(); detail = body.get("message") or body.get("detail")`,
with the `except` clause setting `detail = response.text or None` when
decoding raises or when `body` is not a dict (`.get` raises). -/
def computeDetail (r : Response) : Option Json :=
  match r.jsonBody with
  | some (.obj kvs) =>
    let m := objGet kvs "message"
    if optTruthy m then m else objGet kvs "detail"
  | _ => if r.text = "" then none else some (.str r.text)

/-- The generic fallback message `f"API request failed ({status})"`. -/
def defaultMessage (status : Nat) : String :=
  "API request failed (" ++ toString status ++ ")"

/-- `message = detail or f"API request failed ({status})"`. -/
def computeMessage (r : Response) : Json :=
  let d := computeDetail r
  if optTruthy d then d.getD .null else .str (defaultMessage r.status)

/-- The status → exception-class dispatch of `_raise_for_status`. -/
def kindOfStatus (status : Nat) : ExcKind :=
  if status = 401 then .authenticationError
  else if status = 404 then .notFoundError
  else if status = 422 then .validationError
  else if status ≥ 500 then .serverError
  else .anclaError

/-- `_raise_for_status(response)`: the exception it raises. -/
def raiseForStatus (r : Response) : AnclaException :=
  { kind := kindOfStatus r.status
    message := computeMessage r
    statusCode := r.status
    detail := computeDetail r }

/-- `_request`: raise the mapped exception when `status_code >= 400`,
otherwise return the response unchanged. -/
def requestOutcome (r : Response) : Except AnclaException Response :=
  if r.status ≥ 400 then .error (raiseForStatus r) else .ok r

/-- Raw body text when non-empty, else the generic string — the tail of
the claimed fallback chain. -/
def rawTextFallback (r : Response) : Json :=
  if r.text = "" then .str (defaultMessage r.status) else .str r.text

/-- The message fallback chain as the specification words it (stated
from the spec for comparison against the code, not taken from the
source): "the JSON body's `message`/`detail` field when present, else
the raw response body text, else the generic string". -/
def claimMessage (r : Response) : Json :=
  match r.jsonBody with
  | some (.obj kvs) =>
    match objGet kvs "message" with
    | some m => m
    | none =>
      match objGet kvs "detail" with
      | some d => d
      | none => rawTextFallback r
  | _ => rawTextFallback r

/-! ## `client.py`: construction and request building -/

/-- `_DEFAULT_SERVER` in `client.py`. -/
def defaultServer : String := "https://ancla.dev"

/-- Python's `a or b` over `str | None`, with `None` and `""` falsy. -/
def pyOr (a : Option String) (b : String) : String :=
  match a with
  | some s => if s = "" then b else s
  | none => b

/-- `str.rstrip("/")` on the character list: drop every trailing
slash. -/
def rstripSlashChars (cs : List Char) : List Char :=
  (cs.reverse.dropWhile (· = '/')).reverse

/-- `str.rstrip("/")`. -/
def rstripSlash (s : String) : String := .mk (rstripSlashChars s.data)

/-- `self.api_key = api_key or os.environ.get("ANCLA_API_KEY", "")`.
`arg` is the constructor argument, `env` the environment variable
(`none` when unset). -/
def resolveApiKey (arg env : Option String) : String :=
  pyOr arg (env.getD "")

/-- `self.server = (server or os.environ.get("ANCLA_SERVER") or
_DEFAULT_SERVER).rstrip("/")`.  `os.environ.get` without a default
yields `None` when unset, and an empty environment value is falsy. -/
def resolveServer (arg env : Option String) : String :=
  rstripSlash (pyOr arg (pyOr env defaultServer))

/-- `_build_headers`: the `X-API-Key` header exactly when the resolved
key is truthy (non-empty). -/
def buildHeaders (apiKey : String) : List (String × String) :=
  if apiKey ≠ "" then [("X-API-Key", apiKey)] else []

/-- The state an `AnclaClient` holds after `__init__`: resolved key and
server, plus the session's base URL and default headers. -/
structure AnclaClient where
  api_key : String
  server : String
  baseUrl : String
  headers : List (String × String)
  deriving Repr, DecidableEq

/-- `AnclaClient.__init__(api_key, server)` under environment
`envKey`/`envServer`: resolve the key and server, then configure the
session with base URL `f"{self.server}/api/v1"` and the built
headers. -/
def AnclaClient.init (api_key server envKey envServer : Option String) :
    AnclaClient :=
  let key := resolveApiKey api_key envKey
  let srv := resolveServer server envServer
  { api_key := key
    server := srv
    baseUrl := srv ++ "/api/v1"
    headers := buildHeaders key }

/-- An outgoing HTTP request as issued through the session: method,
full URL (base URL plus path), the session's default headers, and an
optional JSON body. -/
structure Request where
  method : String
  url : String
  headers : List (String × String)
  body : Option Json
  deriving Repr

/-- Issue a request through the client's session (`self._client.request`
resolves `path` against the session's base URL and sends the session's
default headers). -/
def AnclaClient.mkRequest (c : AnclaClient) (method path : String)
    (body : Option Json := none) : Request :=
  { method := method
    url := c.baseUrl ++ path
    headers := c.headers
    body := body }

set_option linter.unusedVariables false in
/-- `get_deployment(org, project, app, deployment_id)`: the request it
issues.  The path template is `f"/deployments/{deployment_id}/detail"` —
the `org`, `project` and `app` parameters are accepted and, as in the
source, never used. -/
def AnclaClient.get_deployment_request (c : AnclaClient)
    (org project app deployment_id : String) : Request :=
  c.mkRequest "GET" ("/deployments/" ++ deployment_id ++ "/detail")

/-! ## `client.py`: list endpoints (decoding of successful bodies) -/

/-- `list_orgs`: `[Org.model_validate(item) for item in resp.json()]`
over a bare-array body. -/
def list_orgs (body : Json) : Option (List Org) :=
  match body with
  | .arr items => validateAll Org.model_validate items
  | _ => none

/-- `list_projects`: bare-array body mapped through
`Project.model_validate`. -/
def list_projects (body : Json) : Option (List Project) :=
  match body with
  | .arr items => validateAll Project.model_validate items
  | _ => none

/-- `list_apps`: bare-array body mapped through `App.model_validate`. -/
def list_apps (body : Json) : Option (List App) :=
  match body with
  | .arr items => validateAll App.model_validate items
  | _ => none

/-- `list_config`: bare-array body mapped through
`ConfigVar.model_validate`. -/
def list_config (body : Json) : Option (List ConfigVar) :=
  match body with
  | .arr items => validateAll ConfigVar.model_validate items
  | _ => none

/-- `list_deployments`: bare-array body mapped through
`Deployment.model_validate`. -/
def list_deployments (body : Json) : Option (List Deployment) :=
  match body with
  | .arr items => validateAll Deployment.model_validate items
  | _ => none

/-- `list_images`: `ImageList.model_validate(resp.json()).items` — the
`{items: [...]}` envelope. -/
def list_images (body : Json) : Option (List Image) :=
  (ImageList.model_validate body).map (·.items)

/-- `list_releases`: `ReleaseList.model_validate(resp.json()).items` —
the `{items: [...]}` envelope. -/
def list_releases (body : Json) : Option (List Release) :=
  (ReleaseList.model_validate body).map (·.items)

/-! ## `client.py`: session lifecycle -/

/-- The underlying HTTP session (`httpx.Client`), tracked by how many
times it was acquired and how many times `close` was invoked on it. -/
structure SessionState where
  acquireCount : Nat
  closeCount : Nat
  deriving Repr, DecidableEq

/-- `__init__` acquires the session exactly once. -/
def sessionAtInit : SessionState := { acquireCount := 1, closeCount := 0 }

/-- `AnclaClient.close`: `self._client.close()`. -/
def sessionClose (s : SessionState) : SessionState :=
  { s with closeCount := s.closeCount + 1 }

/-- `AnclaClient.__exit__` calls `self.close()` (whatever the
exception arguments are). -/
def sessionExit (s : SessionState) : SessionState := sessionClose s

/-- How a `with` block's body finished: normal return or a raised
exception propagating out. -/
inductive BodyOutcome where
  | normal
  | raised
  deriving Repr, DecidableEq

/-- Python `with AnclaClient(...) as c: body` semantics: the session is
acquired at construction, the body runs (possibly touching the
session), and `__exit__` runs on every exit path — after a normal
return and before a raised exception propagates. -/
def withClient (body : SessionState → SessionState × BodyOutcome) :
    SessionState × BodyOutcome :=
  (sessionExit (body sessionAtInit).1, (body sessionAtInit).2)

/-! ## `client.py` / `models.py`: the import surface -/

/-- The names `client.py` imports from `ancla.models` (lines 17–30). -/
def clientModelImports : List String :=
  ["App", "ConfigVar", "CreateReleaseResult", "Deployment",
   "DeployReleaseResult", "DeployResult", "Image", "ImageList", "Org",
   "Project", "Release", "ReleaseList"]

/-- The classes `models.py` defines (its complete top-level surface). -/
def modelsDefinedClasses : List String :=
  ["WorkspaceMember", "Workspace", "Project", "Environment", "Service",
   "Build", "BuildList", "Deploy", "DeployLog", "DeployList", "ConfigVar",
   "StageStatus", "PipelineStatus", "DeployResult", "ScaleResult",
   "BuildResult"]

/-! ## Helper lemmas -/

theorem validateAll_length {α : Type} (f : Json → Option α) :
    ∀ (xs : List Json) (ys : List α), validateAll f xs = some ys →
      ys.length = xs.length := by
  intro xs
  induction xs with
  | nil => intro ys h; simp [validateAll] at h; simp [← h]
  | cons x xs ih =>
    intro ys h
    simp only [validateAll] at h
    cases hx : f x with
    | none => rw [hx] at h; simp at h
    | some a =>
      rw [hx] at h
      cases hxs : validateAll f xs with
      | none => rw [hxs] at h; simp at h
      | some bs =>
        rw [hxs] at h
        have hys : a :: bs = ys := by simpa using h
        subst hys
        simp [ih bs hxs]

theorem validateAll_get {α : Type} (f : Json → Option α) :
    ∀ (xs : List Json) (ys : List α), validateAll f xs = some ys →
      ∀ (i : Nat) (hi : i < xs.length) (hi' : i < ys.length),
        f (xs.get ⟨i, hi⟩) = some (ys.get ⟨i, hi'⟩) := by
  intro xs
  induction xs with
  | nil => intro ys _ i hi; exact absurd hi (by simp)
  | cons x xs ih =>
    intro ys h i hi hi'
    simp only [validateAll] at h
    cases hx : f x with
    | none => rw [hx] at h; simp at h
    | some a =>
      rw [hx] at h
      cases hxs : validateAll f xs with
      | none => rw [hxs] at h; simp at h
      | some bs =>
        rw [hxs] at h
        have hys : a :: bs = ys := by simpa using h
        subst hys
        cases i with
        | zero => simpa using hx
        | succ j =>
          exact ih bs hxs j (by simpa using hi) (by simpa using hi')

end Ancla

open Ancla

/-! ## Claims -/

/-- C1: `client.py` (lines 17–30) imports twelve names from
`ancla.models`, but `models.py` does not define nine of them — in
particular `Org` is imported and undefined — so importing the client
module fails with an `ImportError` and no client operation can run.
This theorem evaluates the import surface against the defined classes,
exhibiting the failure the claim's second half describes. -/
theorem client_model_imports_unresolved :
    "Org" ∈ clientModelImports ∧ "Org" ∉ modelsDefinedClasses ∧
    clientModelImports.filter
        (fun n => !(modelsDefinedClasses.contains n)) =
      ["App", "CreateReleaseResult", "Deployment", "DeployReleaseResult",
       "Image", "ImageList", "Org", "Release", "ReleaseList"] := by
  decide

/-- C2: `_request` raises exactly when the status is ≥ 400, and
`_raise_for_status` picks the exception class by status:
authentication ↔ 401, not-found ↔ 404, validation ↔ 422, server ↔
≥ 500, and the generic `AnclaError` for every other status ≥ 400; a
status < 400 raises nothing and the response is returned for normal
decoding. -/
theorem status_to_exception_taxonomy (r : Response) :
    (r.status < 400 → requestOutcome r = .ok r) ∧
    (400 ≤ r.status →
      requestOutcome r = .error (raiseForStatus r) ∧
      ((raiseForStatus r).kind = .authenticationError ↔ r.status = 401) ∧
      ((raiseForStatus r).kind = .notFoundError ↔ r.status = 404) ∧
      ((raiseForStatus r).kind = .validationError ↔ r.status = 422) ∧
      ((raiseForStatus r).kind = .serverError ↔ 500 ≤ r.status) ∧
      ((raiseForStatus r).kind = .anclaError ↔
        r.status ≠ 401 ∧ r.status ≠ 404 ∧ r.status ≠ 422 ∧ r.status < 500)) := by
  constructor
  · intro h
    unfold requestOutcome
    rw [if_neg (by omega)]
  · intro h
    refine ⟨by unfold requestOutcome; rw [if_pos h], ?_⟩
    have hk : (raiseForStatus r).kind = kindOfStatus r.status := rfl
    rw [hk]
    unfold kindOfStatus
    split_ifs with h1 h2 h3 h4 <;> simp_all

/-- Witness for `status_to_exception_taxonomy`: a 503 response is
rejected as a server error. -/
theorem status_to_exception_taxonomy_witness :
    (raiseForStatus ⟨503, "", none⟩).kind = .serverError := by
  have h := status_to_exception_taxonomy ⟨503, "", none⟩
  exact (h.2 (by norm_num)).2.2.2.2.1.mpr (by norm_num)

/-- C5 (failing input): the resolution chain uses Python `or`, so an
explicitly passed *empty* API key (resp. server) is replaced by the
environment value — the constructor's own docstring says the fallback
happens only "when None".  With `api_key=""` and
`ANCLA_API_KEY=env-key` the client uses `env-key`, not the explicit
argument. -/
theorem explicit_empty_key_loses_to_env :
    resolveApiKey (some "") (some "env-key") = "env-key" ∧
    resolveServer (some "") (some "https://env.ancla.dev") =
      "https://env.ancla.dev" ∧
    ("env-key" : String) ≠ "" := by
  refine ⟨rfl, ?_, by decide⟩
  decide

/-- C10: `get_deployment` builds its request from the deployment id
alone (`/deployments/{deployment_id}/detail`), so two calls agreeing on
`deployment_id` issue identical requests — same method, URL, headers
and body — regardless of the `org`, `project` and `app` arguments. -/
theorem get_deployment_ignores_hierarchy (c : AnclaClient)
    (org₁ project₁ app₁ org₂ project₂ app₂ deployment_id : String) :
    c.get_deployment_request org₁ project₁ app₁ deployment_id =
      c.get_deployment_request org₂ project₂ app₂ deployment_id := rfl

/-- C9: the session is acquired exactly once at construction, and for
every `with AnclaClient(...)` block whose body does not itself touch
the session's acquire/close counters, exiting the block — normally or
by a raised exception — invokes the session's `close` exactly once. -/
theorem session_closed_once_on_exit
    (body : SessionState → SessionState × BodyOutcome)
    (hbody : ∀ s, ((body s).1.acquireCount = s.acquireCount ∧
      (body s).1.closeCount = s.closeCount)) :
    (withClient body).1.closeCount = 1 ∧
    (withClient body).1.acquireCount = 1 := by
  obtain ⟨h1, h2⟩ := hbody sessionAtInit
  unfold withClient sessionExit sessionClose
  exact ⟨by rw [h2]; rfl, by rw [h1]; rfl⟩

/-- C6 (counterexample): `rstrip("/")` removes *all* trailing slashes,
not exactly one — an explicit server argument ending in two slashes
loses both characters, where the claim says it loses exactly one. -/
theorem trailing_slashes_stripped_more_than_once :
    resolveServer (some "https://example.com//") none = "https://example.com" ∧
    resolveServer (some "https://example.com//") none ≠
      "https://example.com/" := by
  constructor <;> decide

/-- C6 (amended): with no explicit server and no environment variable
the resolved server is the fixed default `https://ancla.dev`; the base
path of every request is the resolved server followed by `/api/v1`;
and *all* trailing slashes of an explicit server argument are removed —
so an argument ending in exactly one slash loses exactly that one
character. -/
theorem server_resolution_amended :
    (AnclaClient.init none none none none).server = "https://ancla.dev" ∧
    (∀ k s ek es, (AnclaClient.init k s ek es).baseUrl =
      (AnclaClient.init k s ek es).server ++ "/api/v1") ∧
    (∀ k ek es t, t.data.getLast? ≠ some '/' →
      (AnclaClient.init k (some (t ++ "/")) ek es).server = t) := by
  refine ⟨by decide, fun k s ek es => rfl, ?_⟩
  intro k ek es t ht
  have hne : (t ++ "/") ≠ "" := by
    intro hcontra
    have hd := congrArg String.data hcontra
    simp [String.data_append] at hd
  show rstripSlash (pyOr (some (t ++ "/")) (pyOr es defaultServer)) = t
  rw [show pyOr (some (t ++ "/")) (pyOr es defaultServer) = t ++ "/" by
    simp [pyOr, hne]]
  unfold rstripSlash rstripSlashChars
  rw [show (t ++ "/").data = t.data ++ ['/'] from String.data_append t "/"]
  rw [show ((t.data ++ ['/']).reverse.dropWhile (fun c => c = '/')).reverse =
      List.rdropWhile (fun c => c = '/') (t.data ++ ['/']) from rfl]
  rw [List.rdropWhile_concat_pos _ _ _ (by simp)]
  have hself : List.rdropWhile (fun c => c = '/') t.data = t.data := by
    rw [List.rdropWhile_eq_self_iff]
    intro hl
    simp only [decide_eq_true_eq]
    intro hlast
    exact ht (by rw [List.getLast?_eq_getLast t.data hl, hlast])
  rw [hself]

/-- Witness for `server_resolution_amended`: an explicit server ending
in exactly one slash loses exactly that character. -/
theorem server_resolution_amended_witness :
    (AnclaClient.init none (some "https://example.com/") none none).server =
      "https://example.com" := by
  have h := server_resolution_amended
  exact h.2.2 none none none "https://example.com" (by decide)

/-- C7: the `X-API-Key` header is attached to every request exactly
when the resolved key is non-empty, and then carries exactly the
resolved key; with an empty resolved key the session sends no headers
at all. -/
theorem api_key_header_iff_key_nonempty (k s ek es : Option String)
    (method path : String) (body : Option Json) :
    ((AnclaClient.init k s ek es).api_key ≠ "" →
      ((AnclaClient.init k s ek es).mkRequest method path body).headers =
        [("X-API-Key", (AnclaClient.init k s ek es).api_key)]) ∧
    ((AnclaClient.init k s ek es).api_key = "" →
      ((AnclaClient.init k s ek es).mkRequest method path body).headers =
        []) := by
  constructor
  · intro h
    have h' : resolveApiKey k ek ≠ "" := h
    show buildHeaders (resolveApiKey k ek) =
      [("X-API-Key", resolveApiKey k ek)]
    unfold buildHeaders
    rw [if_pos h']
  · intro h
    have h' : resolveApiKey k ek = "" := h
    show buildHeaders (resolveApiKey k ek) = []
    unfold buildHeaders
    rw [if_neg (fun hne => hne h')]

/-- Witness for `api_key_header_iff_key_nonempty`: the test fixture's
client sends exactly its key. -/
theorem api_key_header_witness :
    ((AnclaClient.init (some "test-key-abc123") (some "https://test.ancla.dev")
        none none).mkRequest "GET" "/organizations/" none).headers =
      [("X-API-Key", "test-key-abc123")] := by
  have h := api_key_header_iff_key_nonempty (some "test-key-abc123")
    (some "https://test.ancla.dev") none none "GET" "/organizations/" none
  rw [h.1 (by decide)]
  decide

/-- Witness for `session_closed_once_on_exit`: both a normally
returning body and a raising body leave the session closed exactly
once. -/
theorem session_closed_once_on_exit_witness :
    (withClient (fun s => (s, .normal))).1.closeCount = 1 ∧
    (withClient (fun s => (s, .raised))).1.closeCount = 1 := by
  refine ⟨(session_closed_once_on_exit _ (fun s => ⟨rfl, rfl⟩)).1,
    (session_closed_once_on_exit _ (fun s => ⟨rfl, rfl⟩)).1⟩

/-- C3 (counterexample): for a 400 response whose body is the valid
JSON object `\x7b\x7d` (no `message`/`detail` field, non-empty text), the
code's message is the generic string, while the claimed fallback chain
("… field when present, else the raw response body text, else the
generic string") yields the raw text.  So the claim, read as stated,
fails on this input. -/
theorem message_chain_counterexample :
    (raiseForStatus ⟨400, "\x7b\x7d", some (.obj [])⟩).message =
      .str (defaultMessage 400) ∧
    claimMessage ⟨400, "\x7b\x7d", some (.obj [])⟩ = .str "\x7b\x7d" ∧
    defaultMessage 400 = "API request failed (400)" ∧
    defaultMessage 400 ≠ "\x7b\x7d" := by
  refine ⟨rfl, rfl, by decide, by decide⟩

/-- C3 (amended): every error response raises an exception carrying the
numeric status, the computed raw detail, and the message chain the code
implements: a truthy `message` field of a JSON-object body, else its
truthy `detail` field; for a body that is not valid JSON the non-empty
raw text (with no secondary decode error — the mapped kind is still
chosen by status); else the generic string. -/
theorem error_detail_and_message_chain (r : Response) (h : 400 ≤ r.status) :
    requestOutcome r = .error (raiseForStatus r) ∧
    (raiseForStatus r).statusCode = r.status ∧
    (raiseForStatus r).kind = kindOfStatus r.status ∧
    (raiseForStatus r).detail = computeDetail r ∧
    (∀ kvs, r.jsonBody = some (.obj kvs) →
      optTruthy (objGet kvs "message") = true →
      (raiseForStatus r).message = (objGet kvs "message").getD .null) ∧
    (∀ kvs, r.jsonBody = some (.obj kvs) →
      optTruthy (objGet kvs "message") = false →
      optTruthy (objGet kvs "detail") = true →
      (raiseForStatus r).message = (objGet kvs "detail").getD .null) ∧
    (r.jsonBody = none → r.text ≠ "" →
      (raiseForStatus r).message = .str r.text ∧
      (raiseForStatus r).detail = some (.str r.text)) ∧
    (r.jsonBody = none → r.text = "" →
      (raiseForStatus r).message = .str (defaultMessage r.status)) ∧
    (optTruthy (computeDetail r) = false →
      (raiseForStatus r).message = .str (defaultMessage r.status)) := by
  refine ⟨by unfold requestOutcome; rw [if_pos h], rfl, rfl, rfl,
    ?_, ?_, ?_, ?_, ?_⟩
  · intro kvs hj hm
    have hd : computeDetail r = objGet kvs "message" := by
      simp [computeDetail, hj, hm]
    show computeMessage r = (objGet kvs "message").getD .null
    simp [computeMessage, hd, hm]
  · intro kvs hj hm hdet
    have hd : computeDetail r = objGet kvs "detail" := by
      simp [computeDetail, hj, hm]
    show computeMessage r = (objGet kvs "detail").getD .null
    simp [computeMessage, hd, hdet]
  · intro hj ht
    have hd : computeDetail r = some (.str r.text) := by
      simp [computeDetail, hj, ht]
    refine ⟨?_, hd⟩
    show computeMessage r = .str r.text
    simp [computeMessage, hd, optTruthy, jsonTruthy, ht]
  · intro hj ht
    have hd : computeDetail r = none := by
      simp [computeDetail, hj, ht]
    show computeMessage r = .str (defaultMessage r.status)
    simp [computeMessage, hd, optTruthy]
  · intro hfalse
    show computeMessage r = .str (defaultMessage r.status)
    simp [computeMessage, hfalse]

/-- Witness for `error_detail_and_message_chain`: the spec's own
example — a 500 with plain-text body `Internal Server Error` and no
decodable JSON — raises with the raw text as message and the
server-error kind, with no secondary error. -/
theorem error_message_chain_witness :
    (raiseForStatus ⟨500, "Internal Server Error", none⟩).message =
      .str "Internal Server Error" ∧
    (raiseForStatus ⟨500, "Internal Server Error", none⟩).kind =
      kindOfStatus 500 := by
  have h := error_detail_and_message_chain ⟨500, "Internal Server Error", none⟩
    (by norm_num)
  exact ⟨(h.2.2.2.2.2.2.1 rfl (by decide)).1, h.2.2.1⟩

/-- C4 (counterexample): `Workspace` and `ConfigVar` declare `name`
(and `slug`) without defaults, so a body with those fields absent fails
validation — absent fields do *not* always default to empty/zero. -/
theorem required_fields_fail_when_absent :
    Workspace.model_validate (.obj []) = none ∧
    ConfigVar.model_validate (.obj []) = none := ⟨rfl, rfl⟩

/-- C4 (amended): for *every* record type exposed by the SDK (the
sixteen model classes `models.py` exports), unknown fields are ignored
and absent fields default to an empty/zero value, *except* the required
identity fields declared without defaults (`name` and `slug` where
present, and `WorkspaceMember`'s `username`/`email`), which fail
validation when absent.  Each group below states, per type: the minimal
object (required fields only) validates to the all-defaults record; an
arbitrary unknown field added to it is ignored; and, for the six types
with required fields, bodies lacking them fail validation.  Types all
of whose fields carry defaults validate even against the empty
object. -/
theorem validation_defaults_amended :
    ((∀ n s, Workspace.model_validate
        (.obj [("name", .str n), ("slug", .str s)]) =
      some ⟨"", n, s, 0, 0, 0, []⟩) ∧
     (∀ n s k v, k ∉ (["id", "name", "slug", "member_count",
        "project_count", "service_count", "members"] : List String) →
      Workspace.model_validate
          (.obj [("name", .str n), ("slug", .str s), (k, v)]) =
        some ⟨"", n, s, 0, 0, 0, []⟩) ∧
     Workspace.model_validate (.obj []) = none ∧
     (∀ n, Workspace.model_validate (.obj [("name", .str n)]) = none)) ∧
    ((∀ u e, WorkspaceMember.model_validate
        (.obj [("username", .str u), ("email", .str e)]) =
      some ⟨u, e, false⟩) ∧
     (∀ u e k v, k ∉ (["username", "email", "admin"] : List String) →
      WorkspaceMember.model_validate
          (.obj [("username", .str u), ("email", .str e), (k, v)]) =
        some ⟨u, e, false⟩) ∧
     WorkspaceMember.model_validate (.obj []) = none ∧
     (∀ u, WorkspaceMember.model_validate
        (.obj [("username", .str u)]) = none)) ∧
    ((∀ n s, Project.model_validate
        (.obj [("name", .str n), ("slug", .str s)]) =
      some ⟨"", n, s, "", "", 0, "", ""⟩) ∧
     (∀ n s k v, k ∉ (["id", "name", "slug", "workspace_slug",
        "workspace_name", "service_count", "created", "updated"] :
          List String) →
      Project.model_validate
          (.obj [("name", .str n), ("slug", .str s), (k, v)]) =
        some ⟨"", n, s, "", "", 0, "", ""⟩) ∧
     Project.model_validate (.obj []) = none) ∧
    ((∀ n s, Environment.model_validate
        (.obj [("name", .str n), ("slug", .str s)]) =
      some ⟨"", n, s, 0, ""⟩) ∧
     (∀ n s k v, k ∉ (["id", "name", "slug", "service_count",
        "created"] : List String) →
      Environment.model_validate
          (.obj [("name", .str n), ("slug", .str s), (k, v)]) =
        some ⟨"", n, s, 0, ""⟩) ∧
     Environment.model_validate (.obj []) = none) ∧
    ((∀ n s, Service.model_validate
        (.obj [("name", .str n), ("slug", .str s)]) =
      some ⟨"", n, s, "", "", "", []⟩) ∧
     (∀ n s k v, k ∉ (["id", "name", "slug", "platform",
        "github_repository", "auto_deploy_branch", "process_counts"] :
          List String) →
      Service.model_validate
          (.obj [("name", .str n), ("slug", .str s), (k, v)]) =
        some ⟨"", n, s, "", "", "", []⟩) ∧
     Service.model_validate (.obj []) = none) ∧
    ((∀ n, ConfigVar.model_validate (.obj [("name", .str n)]) =
      some ⟨"", n, "", false, false⟩) ∧
     (∀ n k v, k ∉ (["id", "name", "value", "secret", "buildtime"] :
        List String) →
      ConfigVar.model_validate (.obj [("name", .str n), (k, v)]) =
        some ⟨"", n, "", false, false⟩) ∧
     ConfigVar.model_validate (.obj []) = none) ∧
    (Build.model_validate (.obj []) = some ⟨"", 0, false, false, ""⟩ ∧
     (∀ k v, k ∉ (["id", "version", "built", "error", "created"] :
        List String) →
      Build.model_validate (.obj [(k, v)]) =
        some ⟨"", 0, false, false, ""⟩)) ∧
    (BuildList.model_validate (.obj []) = some ⟨[]⟩ ∧
     (∀ k v, k ∉ (["items"] : List String) →
      BuildList.model_validate (.obj [(k, v)]) = some ⟨[]⟩)) ∧
    (Deploy.model_validate (.obj []) =
      some ⟨"", false, false, "", "", "", ""⟩ ∧
     (∀ k v, k ∉ (["id", "complete", "error", "error_detail", "job_id",
        "created", "updated"] : List String) →
      Deploy.model_validate (.obj [(k, v)]) =
        some ⟨"", false, false, "", "", "", ""⟩)) ∧
    (DeployList.model_validate (.obj []) = some ⟨[]⟩ ∧
     (∀ k v, k ∉ (["items"] : List String) →
      DeployList.model_validate (.obj [(k, v)]) = some ⟨[]⟩)) ∧
    (DeployLog.model_validate (.obj []) = some ⟨"", ""⟩ ∧
     (∀ k v, k ∉ (["status", "log_text"] : List String) →
      DeployLog.model_validate (.obj [(k, v)]) = some ⟨"", ""⟩)) ∧
    (StageStatus.model_validate (.obj []) = some ⟨""⟩ ∧
     (∀ k v, k ∉ (["status"] : List String) →
      StageStatus.model_validate (.obj [(k, v)]) = some ⟨""⟩)) ∧
    (PipelineStatus.model_validate (.obj []) = some ⟨none, none⟩ ∧
     (∀ k v, k ∉ (["build", "deploy"] : List String) →
      PipelineStatus.model_validate (.obj [(k, v)]) =
        some ⟨none, none⟩)) ∧
    (DeployResult.model_validate (.obj []) = some ⟨""⟩ ∧
     (∀ k v, k ∉ (["build_id"] : List String) →
      DeployResult.model_validate (.obj [(k, v)]) = some ⟨""⟩)) ∧
    (∀ kvs, ScaleResult.model_validate (.obj kvs) = some ⟨⟩) ∧
    (BuildResult.model_validate (.obj []) = some ⟨"", 0⟩ ∧
     (∀ k v, k ∉ (["build_id", "version"] : List String) →
      BuildResult.model_validate (.obj [(k, v)]) = some ⟨"", 0⟩)) := by
  refine ⟨⟨fun n s => rfl, ?wsJunk, rfl, fun n => rfl⟩,
    ⟨fun u e => rfl, ?wmJunk, rfl, fun u => rfl⟩,
    ⟨fun n s => rfl, ?prJunk, rfl⟩,
    ⟨fun n s => rfl, ?envJunk, rfl⟩,
    ⟨fun n s => rfl, ?svJunk, rfl⟩,
    ⟨fun n => rfl, ?cvJunk, rfl⟩,
    ⟨rfl, ?bJunk⟩, ⟨rfl, ?blJunk⟩, ⟨rfl, ?dJunk⟩, ⟨rfl, ?dlJunk⟩,
    ⟨rfl, ?dlogJunk⟩, ⟨rfl, ?ssJunk⟩, ⟨rfl, ?psJunk⟩, ⟨rfl, ?drJunk⟩,
    fun kvs => rfl, ⟨rfl, ?brJunk⟩⟩
  case wsJunk =>
    intro n s k v hk
    simp only [List.mem_cons, List.not_mem_nil, or_false, not_or] at hk
    obtain ⟨h1, h2, h3, h4, h5, h6, h7⟩ := hk
    simp [Workspace.model_validate, fieldStr, fieldInt, fieldList, objGet,
      h1, h2, h3, h4, h5, h6, h7]
  case wmJunk =>
    intro u e k v hk
    simp only [List.mem_cons, List.not_mem_nil, or_false, not_or] at hk
    obtain ⟨h1, h2, h3⟩ := hk
    simp [WorkspaceMember.model_validate, fieldStr, fieldBool, objGet,
      h1, h2, h3]
  case prJunk =>
    intro n s k v hk
    simp only [List.mem_cons, List.not_mem_nil, or_false, not_or] at hk
    obtain ⟨h1, h2, h3, h4, h5, h6, h7, h8⟩ := hk
    simp [Project.model_validate, fieldStr, fieldInt, objGet,
      h1, h2, h3, h4, h5, h6, h7, h8]
  case envJunk =>
    intro n s k v hk
    simp only [List.mem_cons, List.not_mem_nil, or_false, not_or] at hk
    obtain ⟨h1, h2, h3, h4, h5⟩ := hk
    simp [Environment.model_validate, fieldStr, fieldInt, objGet,
      h1, h2, h3, h4, h5]
  case svJunk =>
    intro n s k v hk
    simp only [List.mem_cons, List.not_mem_nil, or_false, not_or] at hk
    obtain ⟨h1, h2, h3, h4, h5, h6, h7⟩ := hk
    simp [Service.model_validate, fieldStr, fieldStrIntMap, objGet,
      h1, h2, h3, h4, h5, h6, h7]
  case cvJunk =>
    intro n k v hk
    simp only [List.mem_cons, List.not_mem_nil, or_false, not_or] at hk
    obtain ⟨h1, h2, h3, h4, h5⟩ := hk
    simp [ConfigVar.model_validate, fieldStr, fieldBool, objGet,
      h1, h2, h3, h4, h5]
  case bJunk =>
    intro k v hk
    simp only [List.mem_cons, List.not_mem_nil, or_false, not_or] at hk
    obtain ⟨h1, h2, h3, h4, h5⟩ := hk
    simp [Build.model_validate, fieldStr, fieldInt, fieldBool, objGet,
      h1, h2, h3, h4, h5]
  case blJunk =>
    intro k v hk
    simp only [List.mem_cons, List.not_mem_nil, or_false] at hk
    simp [BuildList.model_validate, fieldList, objGet, hk]
  case dJunk =>
    intro k v hk
    simp only [List.mem_cons, List.not_mem_nil, or_false, not_or] at hk
    obtain ⟨h1, h2, h3, h4, h5, h6, h7⟩ := hk
    simp [Deploy.model_validate, fieldStr, fieldBool, objGet,
      h1, h2, h3, h4, h5, h6, h7]
  case dlJunk =>
    intro k v hk
    simp only [List.mem_cons, List.not_mem_nil, or_false] at hk
    simp [DeployList.model_validate, fieldList, objGet, hk]
  case dlogJunk =>
    intro k v hk
    simp only [List.mem_cons, List.not_mem_nil, or_false, not_or] at hk
    obtain ⟨h1, h2⟩ := hk
    simp [DeployLog.model_validate, fieldStr, objGet, h1, h2]
  case ssJunk =>
    intro k v hk
    simp only [List.mem_cons, List.not_mem_nil, or_false] at hk
    simp [StageStatus.model_validate, fieldStr, objGet, hk]
  case psJunk =>
    intro k v hk
    simp only [List.mem_cons, List.not_mem_nil, or_false, not_or] at hk
    obtain ⟨h1, h2⟩ := hk
    simp [PipelineStatus.model_validate, fieldOptModel, objGet, h1, h2]
  case drJunk =>
    intro k v hk
    simp only [List.mem_cons, List.not_mem_nil, or_false] at hk
    simp [DeployResult.model_validate, fieldStr, objGet, hk]
  case brJunk =>
    intro k v hk
    simp only [List.mem_cons, List.not_mem_nil, or_false, not_or] at hk
    obtain ⟨h1, h2⟩ := hk
    simp [BuildResult.model_validate, fieldStr, fieldInt, objGet, h1, h2]

/-- Witness for `validation_defaults_amended`: the repository test's
`get_org` payload field `application_count` is unknown to `Workspace`
and is ignored, and an unknown `role` field on a member object is
ignored by `WorkspaceMember`. -/
theorem validation_defaults_amended_witness :
    Workspace.model_validate (.obj [("name", .str "Acme"),
        ("slug", .str "acme"), ("application_count", .num 5)]) =
      some ⟨"", "Acme", "acme", 0, 0, 0, []⟩ ∧
    WorkspaceMember.model_validate (.obj [("username", .str "alice"),
        ("email", .str "alice@example.com"), ("role", .str "owner")]) =
      some ⟨"alice", "alice@example.com", false⟩ := by
  have h := validation_defaults_amended
  exact ⟨h.1.2.1 "Acme" "acme" "application_count" (.num 5) (by decide),
    h.2.1.2.1 "alice" "alice@example.com" "role" (.str "owner")
      (by decide)⟩

/-- C8: every list endpoint, fed a successful body of its documented
shape whose elements validate, returns exactly the typed records of the
input — the bare-array endpoints (`list_orgs`, `list_projects`,
`list_apps`, `list_config`, `list_deployments`) map the array
elementwise, and the envelope endpoints (`list_images`,
`list_releases`) unwrap `items`; the result's length equals the input
length and the i-th record is the validation of the i-th input
object. -/
theorem list_endpoints_decode (items : List Json) :
    (∀ os, validateAll Org.model_validate items = some os →
      list_orgs (.arr items) = some os ∧ os.length = items.length ∧
      ∀ (i : Nat) (hi : i < items.length) (hi' : i < os.length),
        Org.model_validate (items.get ⟨i, hi⟩) = some (os.get ⟨i, hi'⟩)) ∧
    (∀ ps, validateAll Project.model_validate items = some ps →
      list_projects (.arr items) = some ps ∧ ps.length = items.length) ∧
    (∀ sv, validateAll App.model_validate items = some sv →
      list_apps (.arr items) = some sv ∧ sv.length = items.length) ∧
    (∀ cv, validateAll ConfigVar.model_validate items = some cv →
      list_config (.arr items) = some cv ∧ cv.length = items.length) ∧
    (∀ ds, validateAll Deployment.model_validate items = some ds →
      list_deployments (.arr items) = some ds ∧ ds.length = items.length) ∧
    (∀ imgs, validateAll Image.model_validate items = some imgs →
      list_images (.obj [("items", .arr items)]) = some imgs ∧
      imgs.length = items.length ∧
      ∀ (i : Nat) (hi : i < items.length) (hi' : i < imgs.length),
        Image.model_validate (items.get ⟨i, hi⟩) =
          some (imgs.get ⟨i, hi'⟩)) ∧
    (∀ rs, validateAll Release.model_validate items = some rs →
      list_releases (.obj [("items", .arr items)]) = some rs ∧
      rs.length = items.length) := by
  refine ⟨?_, ?_, ?_, ?_, ?_, ?_, ?_⟩
  · intro os hx
    exact ⟨by simp [list_orgs, hx], validateAll_length _ _ _ hx,
      validateAll_get _ _ _ hx⟩
  · intro ps hx
    exact ⟨by simp [list_projects, hx], validateAll_length _ _ _ hx⟩
  · intro sv hx
    exact ⟨by simp [list_apps, hx], validateAll_length _ _ _ hx⟩
  · intro cv hx
    exact ⟨by simp [list_config, hx], validateAll_length _ _ _ hx⟩
  · intro ds hx
    exact ⟨by simp [list_deployments, hx], validateAll_length _ _ _ hx⟩
  · intro imgs hx
    refine ⟨?_, validateAll_length _ _ _ hx, validateAll_get _ _ _ hx⟩
    simp [list_images, ImageList.model_validate, BuildList.model_validate,
      fieldList, objGet]
    rw [show Image.model_validate = Build.model_validate from rfl] at hx
    simp [hx]
  · intro rs hx
    refine ⟨?_, validateAll_length _ _ _ hx⟩
    simp [list_releases, ReleaseList.model_validate, DeployList.model_validate,
      fieldList, objGet]
    rw [show Release.model_validate = Deploy.model_validate from rfl] at hx
    simp [hx]

/-- Witness for `list_endpoints_decode`: the repository tests' own
payloads — one organization in a bare array, one image inside an
`items` envelope — decode to exactly the matching typed records. -/
theorem list_endpoints_decode_witness :
    list_orgs (.arr [.obj [("id", .str "org-1"), ("name", .str "Acme"),
        ("slug", .str "acme"), ("member_count", .num 3),
        ("project_count", .num 2)]]) =
      some [⟨"org-1", "Acme", "acme", 3, 2, 0, []⟩] ∧
    list_images (.obj [("items", .arr [.obj [("id", .str "img-1"),
        ("version", .num 1), ("built", .bool true), ("error", .bool false),
        ("created", .str "2025-01-01")]])]) =
      some [⟨"img-1", 1, true, false, "2025-01-01"⟩] := by
  have h1 := list_endpoints_decode [.obj [("id", .str "org-1"),
    ("name", .str "Acme"), ("slug", .str "acme"), ("member_count", .num 3),
    ("project_count", .num 2)]]
  have h2 := list_endpoints_decode [.obj [("id", .str "img-1"),
    ("version", .num 1), ("built", .bool true), ("error", .bool false),
    ("created", .str "2025-01-01")]]
  exact ⟨(h1.1 _ rfl).1, (h2.2.2.2.2.2.1 _ rfl).1⟩
